import Mathlib

/-!
Verification of the EQidle UI-XML deserializer and hierarchy assembler
(`eq_ui_parser.py` / `eq_ui_model.py`).

The Python code is shallowly embedded: classes become a flat `Element`
record tagged by `ElementClass`; Python attribute presence for the
dynamically created attributes (`raw_pieces_references`,
`raw_pages_references`, `parent_id`, `pieces`, `pages`) is modelled by
`Option` / `PyStrAttr` (with a dedicated `absent` state where reading an
attribute that was never assigned raises `AttributeError`); the object
graph, which the assembler mutates through shared references, is an
explicit store (`List Element`) addressed by allocation index, with
`PieceEntry.refE` playing the role of a Python object reference and
`PieceEntry.strE` a plain string sitting in a `pieces` / `pages` list.
Exceptions are modelled by `Except PyErr`.

Modelling boundary (documented rather than embedded): Python `int()` is
modelled on optionally signed ASCII decimal text with surrounding
whitespace (no underscore digit separators); the dynamic `setattr`
binding is embedded for the scalar fields carried by the model
(`screen_id`, `item`, `text`, `eq_type`, `font`, `top_anchor_offset`,
`relative_position`) — the remaining scalar fields of the source behave
identically and no claim depends on them, and the degenerate source
behaviour of `setattr` replacing a composite- or list-typed field by a
raw string is outside the model.
-/

/-- Python `str.isspace` set used by `str.strip()` (ASCII whitespace). -/
def pyIsSpace (c : Char) : Bool :=
  c = ' ' || c = '\t' || c = '\n' || c = '\x0d' || c = '\x0b' || c = '\x0c'

/-- Strip leading and trailing whitespace from a character list. -/
def stripChars (l : List Char) : List Char :=
  ((l.dropWhile pyIsSpace).reverse.dropWhile pyIsSpace).reverse

/-- Python `s.strip()`. -/
def pyStrip (s : String) : String := ⟨stripChars s.data⟩

/-- Python `s.lower()` (ASCII case folding suffices for the tags involved). -/
def pyLower (s : String) : String := ⟨s.data.map Char.toLower⟩

/-- Truthiness of a Python string: nonempty. -/
def pyTruthy (s : String) : Bool := !s.data.isEmpty

/-- Truthiness of an optional Python string (`None` and `""` are falsy). -/
def truthyOpt : Option String → Bool
  | none => false
  | some s => pyTruthy s

/-- Decimal digit accumulation; `none` when a non-digit appears. -/
def digitsVal : List Char → Nat → Option Nat
  | [], acc => some acc
  | c :: rest, acc =>
    if c.isDigit then digitsVal rest (acc * 10 + (c.toNat - 48)) else none

/-- Python `int(s)` on a character list: optional sign, decimal digits,
surrounding whitespace; `none` models `ValueError`. -/
def pyIntChars (l : List Char) : Option Int :=
  match stripChars l with
  | [] => none
  | '+' :: rest =>
    if rest.isEmpty then none else (digitsVal rest 0).map Int.ofNat
  | '-' :: rest =>
    if rest.isEmpty then none else (digitsVal rest 0).map (fun n => -(n : Int))
  | l' => (digitsVal l' 0).map Int.ofNat

/-- Python `int(s)`. -/
def pyInt (s : String) : Option Int := pyIntChars s.data

/-- Python `":" in s`. -/
def hasColon (s : String) : Bool := s.data.any (· = ':')

/-- Split a character list at every `':'`, keeping empty chunks. -/
def splitColonChars : List Char → List (List Char)
  | [] => [[]]
  | c :: rest =>
    let r := splitColonChars rest
    if c = ':' then [] :: r
    else
      match r with
      | [] => [[c]]
      | h :: t => (c :: h) :: t

/-- Python `s.split(":")`. -/
def pySplitColon (s : String) : List String :=
  (splitColonChars s.data).map (fun l => ⟨l⟩)

/-- Python `s.startswith(p)`. -/
def pyStartsWith (s p : String) : Bool := p.data.isPrefixOf s.data

/-- Point value type (`EQPoint`, eq_ui_model.py lines 23-34). -/
structure EQPoint where
  x : Int
  y : Int
deriving DecidableEq, Repr

/-- Size value type (`EQSize`, eq_ui_model.py lines 36-47). -/
structure EQSize where
  cx : Int
  cy : Int
deriving DecidableEq, Repr

/-- RGBA color value type (`EQRGB`, eq_ui_model.py lines 8-21). -/
structure EQRGB where
  r : Int
  g : Int
  b : Int
  alpha : Int
deriving DecidableEq, Repr

/-- The concrete element classes named in `EQ_ELEMENT_CLASSES`
(eq_ui_parser.py lines 10-25).  The classes `EQWindow`, `EQButton`,
`EQLabel`, `EQGauge`, `EQStaticText` are defined in eq_ui_model.py; the
remaining classes are referenced by the parser but their definitions are
not part of the repository sources and are modelled from the spec. -/
inductive ElementClass where
  | window
  | button
  | label
  | gauge
  | staticText
  | staticAnimation
  | invSlot
  | tileLayoutBox
  | listBox
  | stmlBox
  | verticalLayoutBox
  | page
  | tabBox
deriving DecidableEq, Repr

/-- A Python string attribute that may be altogether absent from the
object: reading `absent` raises `AttributeError`, while `pyNone` is a
present attribute holding `None`. -/
inductive PyStrAttr where
  | absent
  | pyNone
  | val (s : String)
deriving DecidableEq, Repr

/-- One entry of a Python `pieces` / `pages` list: either a raw string
reference or a reference to an allocated element (store index). -/
inductive PieceEntry where
  | strE (s : String)
  | refE (i : Nat)
deriving DecidableEq, Repr

/-- Exceptions the embedded code can raise. -/
inductive PyErr where
  | valueError
  | attributeError (attr : String)
  | nameError (name : String)
deriving DecidableEq, Repr

/-- Flat record for one Python UI-element object.  Fields mirror the
attribute state established by the `eq_ui_model.py` constructor chains;
`pieces`, `pages`, `raw_pieces_references`, `raw_pages_references` are
`Option`s because their presence varies by class and over time, and
`parent_id` is a `PyStrAttr` because no constructor ever creates it. -/
structure Element where
  cls : ElementClass
  screen_id : Option String := none
  item : Option String := none
  text : Option String := none
  eq_type : Option String := none
  font : Int := 3
  top_anchor_offset : Int := 0
  relative_position : Bool := true
  location : EQPoint := ⟨0, 0⟩
  size : EQSize := ⟨0, 0⟩
  text_color : EQRGB := ⟨255, 255, 255, 255⟩
  disabled_color : EQRGB := ⟨0, 0, 0, 255⟩
  background_texture_tint : EQRGB := ⟨255, 255, 255, 255⟩
  mouseover_color : EQRGB := ⟨0, 0, 0, 255⟩
  pressed_color : EQRGB := ⟨0, 0, 0, 255⟩
  fill_tint : EQRGB := ⟨0, 0, 0, 255⟩
  lines_fill_tint : EQRGB := ⟨0, 0, 0, 255⟩
  decal_offset : EQPoint := ⟨0, 0⟩
  decal_size : EQSize := ⟨0, 0⟩
  pieces : Option (List PieceEntry) := none
  pages : Option (List PieceEntry) := none
  raw_pieces_references : Option (List String) := none
  raw_pages_references : Option (List String) := none
  parent_id : PyStrAttr := .absent
deriving DecidableEq, Repr

/-- `hasattr(obj, "eq_type")`: true for the `EQControl` hierarchy, false
for the static screen pieces. -/
def hasEqTypeCls : ElementClass → Bool
  | .staticText => false
  | .staticAnimation => false
  | _ => true

/-- `hasattr` for `mouseover_color` / `pressed_color` / `decal_offset` /
`decal_size`: `EQButton` only. -/
def hasButtonExtrasCls : ElementClass → Bool
  | .button => true
  | _ => false

/-- `hasattr` for `fill_tint` / `lines_fill_tint`: `EQGauge` only. -/
def hasGaugeExtrasCls : ElementClass → Bool
  | .gauge => true
  | _ => false

/-- Zero-argument construction `eq_class()` for each registry class.
`window` gets `pieces = []` (eq_ui_model.py line 238).  Modelled from the
spec: the container classes `Page`, `TileLayoutBox`, `VerticalLayoutBox`
(whose definitions are missing from the sources) carry a child collection
with an empty Pending list (`pieces` plus `raw_pieces_references`), and
`TabBox` carries `pages` plus `raw_pages_references`; the non-container
missing classes carry no child collection. -/
def newElement (c : ElementClass) : Element :=
  match c with
  | .window => { cls := c, pieces := some [] }
  | .page => { cls := c, pieces := some [], raw_pieces_references := some [] }
  | .tileLayoutBox =>
      { cls := c, pieces := some [], raw_pieces_references := some [] }
  | .verticalLayoutBox =>
      { cls := c, pieces := some [], raw_pieces_references := some [] }
  | .tabBox => { cls := c, pages := some [], raw_pages_references := some [] }
  | _ => { cls := c }

/-- Default store cell used for out-of-range reads (never reached on
well-formed object graphs). -/
def dElem : Element := { cls := .button }

/-- `EQ_ELEMENT_CLASSES.get(tag)` (eq_ui_parser.py lines 10-25). -/
def registryLookup (tag : String) : Option ElementClass :=
  if tag = "Screen" then some .window
  else if tag = "Button" then some .button
  else if tag = "Label" then some .label
  else if tag = "Gauge" then some .gauge
  else if tag = "StaticText" then some .staticText
  else if tag = "StaticAnimation" then some .staticAnimation
  else if tag = "InvSlot" then some .invSlot
  else if tag = "TileLayoutBox" then some .tileLayoutBox
  else if tag = "Listbox" then some .listBox
  else if tag = "STMLbox" then some .stmlBox
  else if tag = "VerticalLayoutBox" then some .verticalLayoutBox
  else if tag = "Page" then some .page
  else if tag = "TabBox" then some .tabBox
  else none

/-- A generic markup node as handed to the deserializer: tag, ordered
attribute pairs, ordered children, optional direct text. -/
inductive Node where
  | mk (tag : String) (attrib : List (String × String))
       (children : List Node) (txt : Option String)

/-- Tag accessor. -/
def Node.tag : Node → String
  | .mk t _ _ _ => t

/-- Attribute-list accessor. -/
def Node.attrib : Node → List (String × String)
  | .mk _ a _ _ => a

/-- Children accessor. -/
def Node.children : Node → List Node
  | .mk _ _ c _ => c

/-- Direct-text accessor. -/
def Node.txt : Node → Option String
  | .mk _ _ _ t => t

/-- `node.get(k)` / `k in node.attrib`: first binding of attribute `k`. -/
def lookupAttr (attrib : List (String × String)) (k : String) : Option String :=
  (attrib.find? (fun p => p.1 = k)).map (fun p => p.2)

/-- One iteration of the attribute loop (eq_ui_parser.py lines 82-101):
`ID` sets `screen_id` unconditionally; `name` sets `screen_id` and `item`
only when still `None`; any other attribute naming a declared field is
coerced by the field's current type (bool / int / string), where a failed
`int()` raises `ValueError`. -/
def stepAttr (e : Element) (a : String × String) : Except PyErr Element :=
  if a.1 = "ID" then .ok { e with screen_id := some a.2 }
  else if a.1 = "name" then
    let e1 := if e.screen_id = none then { e with screen_id := some a.2 } else e
    .ok (if e1.item = none then { e1 with item := some a.2 } else e1)
  else if a.1 = "screen_id" then .ok { e with screen_id := some a.2 }
  else if a.1 = "item" then .ok { e with item := some a.2 }
  else if a.1 = "text" then .ok { e with text := some a.2 }
  else if a.1 = "eq_type" then
    if hasEqTypeCls e.cls then .ok { e with eq_type := some a.2 } else .ok e
  else if a.1 = "font" then
    match pyInt a.2 with
    | some k => .ok { e with font := k }
    | none => .error .valueError
  else if a.1 = "top_anchor_offset" then
    match pyInt a.2 with
    | some k => .ok { e with top_anchor_offset := k }
    | none => .error .valueError
  else if a.1 = "relative_position" then
    .ok { e with relative_position := pyLower a.2 = "true" }
  else .ok e

/-- The whole attribute loop, in document order. -/
def attrsPhase : List (String × String) → Element → Except PyErr Element
  | [], e => .ok e
  | a :: rest, e =>
    match stepAttr e a with
    | .error er => .error er
    | .ok e' => attrsPhase rest e'

/-- Sub-node loop of a Point-valued composite (eq_ui_parser.py lines
116-120): an `X` / `Y` child with non-`None` text is `int()`-coerced,
raising `ValueError` on bad text. -/
def pointSubs : List Node → EQPoint → Except PyErr EQPoint
  | [], pt => .ok pt
  | c :: rest, pt =>
    let step : Except PyErr EQPoint :=
      if c.tag = "X" then
        match c.txt with
        | some t =>
          match pyInt (pyStrip t) with
          | some v => .ok { pt with x := v }
          | none => .error .valueError
        | none => .ok pt
      else if c.tag = "Y" then
        match c.txt with
        | some t =>
          match pyInt (pyStrip t) with
          | some v => .ok { pt with y := v }
          | none => .error .valueError
        | none => .ok pt
      else .ok pt
    match step with
    | .error er => .error er
    | .ok pt' => pointSubs rest pt'

/-- A Point-valued composite node: `X` / `Y` attributes first (lines
111-114), then `X` / `Y` sub-nodes (lines 116-120). -/
def applyPointNode (attrib : List (String × String)) (children : List Node)
    (pt : EQPoint) : Except PyErr EQPoint :=
  let s1 : Except PyErr EQPoint :=
    match lookupAttr attrib "X" with
    | some s =>
      match pyInt s with
      | some v => .ok { pt with x := v }
      | none => .error .valueError
    | none => .ok pt
  match s1 with
  | .error er => .error er
  | .ok pt1 =>
    let s2 : Except PyErr EQPoint :=
      match lookupAttr attrib "Y" with
      | some s =>
        match pyInt s with
        | some v => .ok { pt1 with y := v }
        | none => .error .valueError
      | none => .ok pt1
    match s2 with
    | .error er => .error er
    | .ok pt2 => pointSubs children pt2

/-- Sub-node loop of a Size-valued composite (lines 129-133). -/
def sizeSubs : List Node → EQSize → Except PyErr EQSize
  | [], sz => .ok sz
  | c :: rest, sz =>
    let step : Except PyErr EQSize :=
      if c.tag = "CX" then
        match c.txt with
        | some t =>
          match pyInt (pyStrip t) with
          | some v => .ok { sz with cx := v }
          | none => .error .valueError
        | none => .ok sz
      else if c.tag = "CY" then
        match c.txt with
        | some t =>
          match pyInt (pyStrip t) with
          | some v => .ok { sz with cy := v }
          | none => .error .valueError
        | none => .ok sz
      else .ok sz
    match step with
    | .error er => .error er
    | .ok sz' => sizeSubs rest sz'

/-- A Size-valued composite node: `CX` / `CY` attributes first (lines
124-127), then sub-nodes (lines 129-133). -/
def applySizeNode (attrib : List (String × String)) (children : List Node)
    (sz : EQSize) : Except PyErr EQSize :=
  let s1 : Except PyErr EQSize :=
    match lookupAttr attrib "CX" with
    | some s =>
      match pyInt s with
      | some v => .ok { sz with cx := v }
      | none => .error .valueError
    | none => .ok sz
  match s1 with
  | .error er => .error er
  | .ok sz1 =>
    let s2 : Except PyErr EQSize :=
      match lookupAttr attrib "CY" with
      | some s =>
        match pyInt s with
        | some v => .ok { sz1 with cy := v }
        | none => .error .valueError
      | none => .ok sz1
    match s2 with
    | .error er => .error er
    | .ok sz2 => sizeSubs children sz2

/-- Sub-node loop of a Color-valued composite (lines 158-166). -/
def rgbSubs : List Node → EQRGB → Except PyErr EQRGB
  | [], c0 => .ok c0
  | c :: rest, c0 =>
    let one (t : String) (upd : Int → EQRGB) : Except PyErr EQRGB :=
      match pyInt (pyStrip t) with
      | some v => .ok (upd v)
      | none => .error .valueError
    let step : Except PyErr EQRGB :=
      if c.tag = "R" then
        match c.txt with
        | some t => one t (fun v => { c0 with r := v })
        | none => .ok c0
      else if c.tag = "G" then
        match c.txt with
        | some t => one t (fun v => { c0 with g := v })
        | none => .ok c0
      else if c.tag = "B" then
        match c.txt with
        | some t => one t (fun v => { c0 with b := v })
        | none => .ok c0
      else if c.tag = "Alpha" then
        match c.txt with
        | some t => one t (fun v => { c0 with alpha := v })
        | none => .ok c0
      else .ok c0
    match step with
    | .error er => .error er
    | .ok c1 => rgbSubs rest c1

/-- One attribute of a Color-valued composite (lines 153-156). -/
def rgbAttr (attrib : List (String × String)) (k : String)
    (c0 : EQRGB) (upd : EQRGB → Int → EQRGB) : Except PyErr EQRGB :=
  match lookupAttr attrib k with
  | some s =>
    match pyInt s with
    | some v => .ok (upd c0 v)
    | none => .error .valueError
  | none => .ok c0

/-- A Color-valued composite node: `R`, `G`, `B`, `Alpha` attributes
first (lines 153-156), then sub-nodes (lines 158-166). -/
def applyRgbNode (attrib : List (String × String)) (children : List Node)
    (c0 : EQRGB) : Except PyErr EQRGB :=
  match rgbAttr attrib "R" c0 (fun c v => { c with r := v }) with
  | .error er => .error er
  | .ok c1 =>
    match rgbAttr attrib "G" c1 (fun c v => { c with g := v }) with
    | .error er => .error er
    | .ok c2 =>
      match rgbAttr attrib "B" c2 (fun c v => { c with b := v }) with
      | .error er => .error er
      | .ok c3 =>
        match rgbAttr attrib "Alpha" c3 (fun c v => { c with alpha := v }) with
        | .error er => .error er
        | .ok c4 => rgbSubs children c4

/-- Membership in the color-composite tag list (line 134). -/
def isColorTag (tag : String) : Bool :=
  tag = "TextColor" || tag = "BackgroundTextureTint" || tag = "DisabledColor" ||
  tag = "MouseoverColor" || tag = "PressedColor" || tag = "FillTint" ||
  tag = "LinesFillTint"

/-- Target selection for a color tag (lines 135-149): the matching field
when this class carries it, together with its setter. -/
def colorTarget (e : Element) (tag : String) :
    Option (EQRGB × (EQRGB → Element)) :=
  if tag = "TextColor" then some (e.text_color, fun c => { e with text_color := c })
  else if tag = "BackgroundTextureTint" then
    some (e.background_texture_tint, fun c => { e with background_texture_tint := c })
  else if tag = "DisabledColor" then
    some (e.disabled_color, fun c => { e with disabled_color := c })
  else if tag = "MouseoverColor" then
    if hasButtonExtrasCls e.cls then
      some (e.mouseover_color, fun c => { e with mouseover_color := c })
    else none
  else if tag = "PressedColor" then
    if hasButtonExtrasCls e.cls then
      some (e.pressed_color, fun c => { e with pressed_color := c })
    else none
  else if tag = "FillTint" then
    if hasGaugeExtrasCls e.cls then
      some (e.fill_tint, fun c => { e with fill_tint := c })
    else none
  else if tag = "LinesFillTint" then
    if hasGaugeExtrasCls e.cls then
      some (e.lines_fill_tint, fun c => { e with lines_fill_tint := c })
    else none
  else none

/-- `child.text.strip() if child.text else ""` (lines 189, 192, 195). -/
def stripOrEmpty : Option String → String
  | none => ""
  | some t => if pyTruthy t then pyStrip t else ""

/-- Fallback scalar binding (lines 250-264): a child tag whose lower-cased
form names a declared field assigns the stripped text coerced by the
field's current type; `ValueError` is caught by the surrounding
`try`/`except`, leaving the field at its previous value. -/
def fallbackAssign (e : Element) (prop : String) (t : String) : Element :=
  if prop = "screen_id" then { e with screen_id := some (pyStrip t) }
  else if prop = "item" then { e with item := some (pyStrip t) }
  else if prop = "text" then { e with text := some (pyStrip t) }
  else if prop = "eq_type" then
    if hasEqTypeCls e.cls then { e with eq_type := some (pyStrip t) } else e
  else if prop = "font" then
    match pyInt (pyStrip t) with
    | some k => { e with font := k }
    | none => e
  else if prop = "top_anchor_offset" then
    match pyInt (pyStrip t) with
    | some k => { e with top_anchor_offset := k }
    | none => e
  else if prop = "relative_position" then
    { e with relative_position := pyLower (pyStrip t) = "true" }
  else e

mutual

/-- `parse_element_properties` (eq_ui_parser.py lines 76-264): the
attribute loop, then the child-node loop in document order. -/
def parseElementProperties : Node → Element → List Element →
    Except PyErr (Element × List Element)
  | .mk _tag attrib children _txt, e, heap =>
    match attrsPhase attrib e with
    | .error er => .error er
    | .ok e' => childrenFold children e' heap

/-- The child-node loop (line 104), threading the element together with
the store of elements allocated by nested parses. -/
def childrenFold : List Node → Element → List Element →
    Except PyErr (Element × List Element)
  | [], e, heap => .ok (e, heap)
  | c :: rest, e, heap =>
    match processChild c e heap with
    | .error er => .error er
    | .ok (e', heap') => childrenFold rest e' heap'

/-- Dispatch on one child node's tag (the `elif` chain, lines 108-264). -/
def processChild : Node → Element → List Element →
    Except PyErr (Element × List Element)
  | .mk tag attrib children txt, e, heap =>
    if tag = "Location" then
      match applyPointNode attrib children e.location with
      | .error er => .error er
      | .ok p => .ok ({ e with location := p }, heap)
    else if tag = "Size" then
      match applySizeNode attrib children e.size with
      | .error er => .error er
      | .ok sz => .ok ({ e with size := sz }, heap)
    else if isColorTag tag then
      match colorTarget e tag with
      | some pr =>
        match applyRgbNode attrib children pr.1 with
        | .error er => .error er
        | .ok c => .ok (pr.2 c, heap)
      | none => .ok (e, heap)
    else if tag = "DecalOffset" then
      if hasButtonExtrasCls e.cls then
        match applyPointNode attrib children e.decal_offset with
        | .error er => .error er
        | .ok p => .ok ({ e with decal_offset := p }, heap)
      else .ok (e, heap)
    else if tag = "DecalSize" then
      if hasButtonExtrasCls e.cls then
        match applySizeNode attrib children e.decal_size with
        | .error er => .error er
        | .ok sz => .ok ({ e with decal_size := sz }, heap)
      else .ok (e, heap)
    else if tag = "Text" then .ok ({ e with text := some (stripOrEmpty txt) }, heap)
    else if tag = "ScreenID" then
      .ok ({ e with screen_id := some (stripOrEmpty txt) }, heap)
    else if tag = "EQType" then
      if hasEqTypeCls e.cls then
        .ok ({ e with eq_type := some (stripOrEmpty txt) }, heap)
      else .ok (e, heap)
    else if tag = "Font" then
      match txt with
      | none => .ok (e, heap)
      | some t =>
        match pyInt (pyStrip t) with
        | some k => .ok ({ e with font := k }, heap)
        | none => .ok (e, heap)
    else if tag = "Pieces" then
      match e.raw_pieces_references with
      | some refs =>
        match txt with
        | some t =>
          if pyTruthy (pyStrip t) then
            .ok ({ e with raw_pieces_references := some (refs ++ [pyStrip t]) }, heap)
          else nestedFold children e heap true
        | none => nestedFold children e heap true
      | none => .ok (e, heap)
    else if tag = "Pages" then
      match e.raw_pages_references with
      | some refs =>
        match txt with
        | some t =>
          if pyTruthy (pyStrip t) then
            .ok ({ e with raw_pages_references := some (refs ++ [pyStrip t]) }, heap)
          else nestedFold children e heap false
        | none => nestedFold children e heap false
      | none => .ok (e, heap)
    else
      match txt with
      | some t =>
        if pyTruthy (pyStrip t) then .ok (fallbackAssign e (pyLower tag) t, heap)
        else .ok (e, heap)
      | none => .ok (e, heap)

/-- Nested-element form of `Pieces` / `Pages` (lines 218-226 / 236-244):
each recognized nested node is fully parsed as a fresh element, allocated
in the store, and a reference to it appended to `pieces` (`isP = true`)
or `pages`; appending raises `AttributeError` when the list attribute
does not exist. -/
def nestedFold : List Node → Element → List Element → Bool →
    Except PyErr (Element × List Element)
  | [], e, heap, _ => .ok (e, heap)
  | c :: rest, e, heap, isP =>
    match registryLookup c.tag with
    | some cl =>
      match parseElementProperties c (newElement cl) heap with
      | .error er => .error er
      | .ok (obj, heap') =>
        match (if isP then e.pieces else e.pages) with
        | some l =>
          let e' :=
            if isP then { e with pieces := some (l ++ [.refE heap'.length]) }
            else { e with pages := some (l ++ [.refE heap'.length]) }
          nestedFold rest e' (heap' ++ [obj]) isP
        | none => .error (.attributeError (if isP then "pieces" else "pages"))
    | none => nestedFold rest e heap isP

end

/-- Input to one `parse_eq_ui_xml` call: the two fatal conditions caught
at lines 63-68 (`FileNotFoundError`, `ET.ParseError`), or a successfully
read and parsed document with its root node. -/
inductive ParseInput where
  | fileNotFound
  | parseError
  | doc (root : Node)

/-- The object graph a parse returns: the store of allocated elements and
the `parsed_elements` list as store indices. -/
structure ObjGraph where
  heap : List Element
  tops : List Nat
deriving DecidableEq, Repr

/-- Loop over the children of an `<XML>` root (lines 41-50): recognized
tags are parsed and appended, unknown tags are skipped with a warning. -/
def topLevelFold : List Node → ObjGraph → Except PyErr ObjGraph
  | [], g => .ok g
  | c :: rest, g =>
    match registryLookup c.tag with
    | some cl =>
      match parseElementProperties c (newElement cl) g.heap with
      | .error er => .error er
      | .ok (obj, heap') => topLevelFold rest ⟨heap' ++ [obj], g.tops ++ [heap'.length]⟩
    | none => topLevelFold rest g

/-- `parse_eq_ui_xml` (lines 27-73).  The two fatal conditions and the
broad `except Exception` at line 69 all return the empty list; a root
tagged `XML` has its children parsed in order; a recognized root element
is parsed alone; any other root is reported and the empty list
returned. -/
def parse_eq_ui_xml : ParseInput → ObjGraph
  | .fileNotFound => ⟨[], []⟩
  | .parseError => ⟨[], []⟩
  | .doc root =>
    let res : Except PyErr ObjGraph :=
      if root.tag = "XML" then topLevelFold root.children ⟨[], []⟩
      else
        match registryLookup root.tag with
        | some cl =>
          match parseElementProperties root (newElement cl) [] with
          | .error er => .error er
          | .ok (obj, heap') => .ok ⟨heap' ++ [obj], [heap'.length]⟩
        | none => .ok ⟨[], []⟩
    match res with
    | .ok g => g
    | .error _ => ⟨[], []⟩

/-- Read a store cell (a Python object reference dereference). -/
def getC (h : List Element) (i : Nat) : Element := h.getD i dElem

/-- Write a store cell (mutation of a shared Python object). -/
def setC (h : List Element) (i : Nat) (e : Element) : List Element := h.set i e

/-- Python `dict` lookup on the insertion-ordered association list. -/
def dictGet (d : List (String × Nat)) (k : String) : Option Nat :=
  ((d.find? (fun p => p.1 = k))).map (fun p => p.2)

/-- Python `dict` insertion: an existing key keeps its position and takes
the new value, a new key is appended. -/
def dictInsert (d : List (String × Nat)) (k : String) (v : Nat) :
    List (String × Nat) :=
  if d.any (fun p => p.1 = k) then
    d.map (fun p => if p.1 = k then (k, v) else p)
  else d ++ [(k, v)]

/-- `isinstance(x, (EQWindow, EQPage, EQTabBox, EQTilesLayoutBox,
EQVerticalLayoutBox))` (lines 341 and 383). -/
def isContainerCls : ElementClass → Bool
  | .window => true
  | .page => true
  | .tabBox => true
  | .tileLayoutBox => true
  | .verticalLayoutBox => true
  | _ => false

/-- `isinstance(p, str)` for a `pieces` / `pages` entry. -/
def isStrEntry : PieceEntry → Bool
  | .strE _ => true
  | .refE _ => false

/-- The strings of an all-string entry list (`list(element.pieces)`). -/
def strsOf (l : List PieceEntry) : List String :=
  l.filterMap (fun p => match p with | .strE s => some s | .refE _ => none)

/-- Truthiness of a possibly absent string attribute (`absent` is never
interrogated where this is used without first raising). -/
def attrTruthy : PyStrAttr → Bool
  | .absent => false
  | .pyNone => false
  | .val s => pyTruthy s

/-- Mutable state of one `assemble_ui_hierarchy` call. -/
structure AsmState where
  heap : List Element
  all : List (String × Nat)
  windows : List (String × Nat)
deriving DecidableEq, Repr

/-- Reference-list reset of the first pass (lines 287-296): when the
`pieces` (resp. `pages`) attribute exists and every entry is a string,
copy the strings into `raw_pieces_references` (resp.
`raw_pages_references`) and reset the list to empty. -/
def stage1Resets (e : Element) : Element :=
  let e1 :=
    match e.pieces with
    | some ps =>
      if ps.all isStrEntry then
        { e with raw_pieces_references := some (strsOf ps), pieces := some [] }
      else e
    | none => e
  match e1.pages with
  | some ps =>
    if ps.all isStrEntry then
      { e1 with raw_pages_references := some (strsOf ps), pages := some [] }
    else e1
  | none => e1

/-- First pass, one element (lines 282-296): index a truthy ScreenID
into `all_elements_by_id` (and `windows_by_id` for `EQWindow`s), then
apply the reference-list resets to the same element. -/
def stage1Step (st : AsmState) (i : Nat) : AsmState :=
  let e := getC st.heap i
  let all' :=
    if truthyOpt e.screen_id then dictInsert st.all (e.screen_id.getD "") i
    else st.all
  let windows' :=
    if truthyOpt e.screen_id && (e.cls = ElementClass.window) then
      dictInsert st.windows (e.screen_id.getD "") i
    else st.windows
  ⟨setC st.heap i (stage1Resets e), all', windows'⟩

/-- First pass over `parsed_elements` in order. -/
def stage1 (g : ObjGraph) : AsmState :=
  g.tops.foldl stage1Step ⟨g.heap, [], []⟩

/-- Reference resolution (lines 306-310 / 321-325): when the string
contains a colon it is split on every colon and the second part is
taken. -/
def resolveRefId (ref : String) : String :=
  if hasColon ref then
    let parts := pySplitColon ref
    if parts.length > 1 then parts.getD 1 "" else ref
  else ref

/-- Second pass, one container's reference list (lines 304-317 /
320-332): resolve each string in the global index; on a hit append a
reference to the container's `pieces` (`isP = true`) or `pages` and stamp
the child's `parent_id` with the container's ScreenID; on a miss skip
with a warning. -/
def attachRefs (all : List (String × Nat)) (i : Nat) (isP : Bool) :
    List String → List Element → Except PyErr (List Element)
  | [], heap => .ok heap
  | ref :: rest, heap =>
    match dictGet all (resolveRefId ref) with
    | some j =>
      let e := getC heap i
      match (if isP then e.pieces else e.pages) with
      | some l =>
        let e' :=
          if isP then { e with pieces := some (l ++ [.refE j]) }
          else { e with pages := some (l ++ [.refE j]) }
        let heap1 := setC heap i e'
        let pv : PyStrAttr :=
          match (getC heap1 i).screen_id with
          | none => .pyNone
          | some s => .val s
        let cj := getC heap1 j
        attachRefs all i isP rest (setC heap1 j { cj with parent_id := pv })
      | none => .error (.attributeError (if isP then "pieces" else "pages"))
    | none => attachRefs all i isP rest heap

/-- Second pass, one indexed element (lines 301-332): the `pieces`
references when the attribute exists and the list is truthy, then the
`pages` references likewise. -/
def stage2Step (all : List (String × Nat)) (heap : List Element)
    (pr : String × Nat) : Except PyErr (List Element) :=
  let e := getC heap pr.2
  let h1 : Except PyErr (List Element) :=
    match e.raw_pieces_references with
    | some refs =>
      if refs.isEmpty then .ok heap else attachRefs all pr.2 true refs heap
    | none => .ok heap
  match h1 with
  | .error er => .error er
  | .ok heap1 =>
    match (getC heap1 pr.2).raw_pages_references with
    | some refs =>
      if refs.isEmpty then .ok heap1 else attachRefs all pr.2 false refs heap1
    | none => .ok heap1

/-- Second pass over the global index in insertion order. -/
def stage2Fold (all : List (String × Nat)) :
    List (String × Nat) → List Element → Except PyErr (List Element)
  | [], heap => .ok heap
  | pr :: rest, heap =>
    match stage2Step all heap pr with
    | .error er => .error er
    | .ok heap' => stage2Fold all rest heap'

/-- Second pass (explicit child-reference resolution). -/
def stage2 (st : AsmState) : Except PyErr AsmState :=
  match stage2Fold st.all st.all st.heap with
  | .error er => .error er
  | .ok h => .ok { st with heap := h }

/-- `piece.screen_id == element_id` (`None` never equals a string). -/
def optEqStr (o : Option String) (s : String) : Bool :=
  match o with
  | some t => t = s
  | none => false

/-- One entry of a nested `any(...)` scan (lines 355, 358, 367): a plain
string has no `screen_id` attribute, a referenced element is compared by
ScreenID. -/
def entryScreenIdIs (heap : List Element) (eid : String) : PieceEntry → Bool
  | .strE _ => false
  | .refE j => optEqStr (getC heap j).screen_id eid

/-- `any(... for sub in l)` over an entry list. -/
def entryListHasId (heap : List Element) (eid : String)
    (l : List PieceEntry) : Bool :=
  l.any (entryScreenIdIs heap eid)

/-- Scan of the main window's direct `pieces` (lines 350-360): match on
the piece's own ScreenID, then on the ScreenIDs inside its `pieces`, then
inside its `pages`. -/
def pieceScan (heap : List Element) (eid : String) : List PieceEntry → Bool
  | [] => false
  | .strE _ :: rest => pieceScan heap eid rest
  | .refE j :: rest =>
    let p := getC heap j
    if optEqStr p.screen_id eid then true
    else if (match p.pieces with
             | some l => entryListHasId heap eid l
             | none => false) then true
    else if (match p.pages with
             | some l => entryListHasId heap eid l
             | none => false) then true
    else pieceScan heap eid rest

/-- Scan of the main window's direct `pages` (lines 363-372).  The third
check (line 370) evaluates the undefined name `page_in_page` inside its
generator, so a page whose `pages` list is non-empty raises
`NameError`. -/
def pageScan (heap : List Element) (eid : String) :
    List PieceEntry → Except PyErr Bool
  | [] => .ok false
  | .strE _ :: rest => pageScan heap eid rest
  | .refE j :: rest =>
    let p := getC heap j
    if optEqStr p.screen_id eid then .ok true
    else if (match p.pieces with
             | some l => entryListHasId heap eid l
             | none => false) then .ok true
    else
      match p.pages with
      | some l =>
        if l.isEmpty then pageScan heap eid rest
        else .error (.nameError "page_in_page")
      | none => pageScan heap eid rest

/-- `is_already_child_of_subcontainer` (lines 347-372): the direct
`pieces` scan, then — when nothing was found — the direct `pages`
scan. -/
def isAlreadyChild (heap : List Element) (w : Nat) (eid : String) :
    Except PyErr Bool :=
  let mw := getC heap w
  let foundPieces :=
    match mw.pieces with
    | some ps => pieceScan heap eid ps
    | none => false
  if foundPieces then .ok true
  else
    match mw.pages with
    | some pgs => pageScan heap eid pgs
    | none => .ok false

/-- Third pass, one indexed element (lines 338-377): skip containers;
read `parent_id` (raising `AttributeError` when the attribute was never
assigned); skip elements with a truthy parent or whose ScreenID does not
start with `"IW_"`; otherwise, unless already a child of a
sub-container, append to the main window's `pieces` and stamp the
parent. -/
def stage3Step (w : Nat) (heap : List Element) (pr : String × Nat) :
    Except PyErr (List Element) :=
  let e := getC heap pr.2
  if isContainerCls e.cls then .ok heap
  else
    match e.parent_id with
    | .absent => .error (.attributeError "parent_id")
    | pid =>
      if attrTruthy pid then .ok heap
      else if !(pyStartsWith pr.1 "IW_") then .ok heap
      else
        match isAlreadyChild heap w pr.1 with
        | .error er => .error er
        | .ok true => .ok heap
        | .ok false =>
          let mw := getC heap w
          match mw.pieces with
          | some l =>
            let heap1 := setC heap w { mw with pieces := some (l ++ [.refE pr.2]) }
            let pv : PyStrAttr :=
              match (getC heap1 w).screen_id with
              | none => .pyNone
              | some s => .val s
            let ei := getC heap1 pr.2
            .ok (setC heap1 pr.2 { ei with parent_id := pv })
          | none => .error (.attributeError "pieces")

/-- Third pass over the global index in insertion order. -/
def stage3Fold (w : Nat) : List (String × Nat) → List Element →
    Except PyErr (List Element)
  | [], heap => .ok heap
  | pr :: rest, heap =>
    match stage3Step w heap pr with
    | .error er => .error er
    | .ok heap' => stage3Fold w rest heap'

/-- Third pass (lines 334-377): runs only when a window with ScreenID
`"InventoryWindow"` was indexed. -/
def stage3 (st : AsmState) : Except PyErr AsmState :=
  match dictGet st.windows "InventoryWindow" with
  | none => .ok st
  | some w =>
    match stage3Fold w st.all st.heap with
    | .error er => .error er
    | .ok h => .ok { st with heap := h }

/-- Fourth pass (lines 380-384): over `parsed_elements`, read
`parent_id` (raising `AttributeError` when never assigned); an element
with a falsy parent, a truthy ScreenID and a non-container class joins
the unassigned list. -/
def stage4Fold : List Nat → List Element → List Nat → Except PyErr (List Nat)
  | [], _, acc => .ok acc
  | i :: rest, heap, acc =>
    let e := getC heap i
    match e.parent_id with
    | .absent => .error (.attributeError "parent_id")
    | pid =>
      if attrTruthy pid then stage4Fold rest heap acc
      else if truthyOpt e.screen_id && !isContainerCls e.cls then
        stage4Fold rest heap (acc ++ [i])
      else stage4Fold rest heap acc

/-- The three-part result of `assemble_ui_hierarchy`, together with the
final object store. -/
structure AsmResult where
  heap : List Element
  windows_by_id : List (String × Nat)
  all_elements_by_id : List (String × Nat)
  unassigned_elements : List Nat
deriving DecidableEq, Repr

/-- `assemble_ui_hierarchy` (lines 266-386): the four passes in order;
any uncaught exception aborts the call with no result. -/
def assembleUiHierarchy (g : ObjGraph) : Except PyErr AsmResult :=
  let st1 := stage1 g
  match stage2 st1 with
  | .error er => .error er
  | .ok st2 =>
    match stage3 st2 with
    | .error er => .error er
    | .ok st3 =>
      match stage4Fold g.tops st3.heap [] with
      | .error er => .error er
      | .ok un => .ok ⟨st3.heap, st3.windows, st3.all, un⟩

deriving instance DecidableEq for Except

/-- A parsed `EQButton` carrying only a ScreenID. -/
def btnB : Element := { newElement .button with screen_id := some "B" }

/-- `<Screen ID="W"><Pieces>Btn1</Pieces></Screen>`. -/
def screenPiecesNode : Node :=
  .mk "Screen" [("ID", "W")] [.mk "Pieces" [] [] (some "Btn1")] none

/-- The element the deserializer produces for `screenPiecesNode`: only the
ScreenID is set; the `Btn1` reference is recorded nowhere. -/
def screenPiecesResult : Element :=
  { newElement .window with screen_id := some "W" }

/-- A parsed window `"InventoryWindow"` with no children. -/
def invWin : Element := { newElement .window with screen_id := some "InventoryWindow" }

/-- A parsed label `"Inventory_Slot"`, the ScreenID obtained from
`"InventoryWindow"` by the spec's strip-`"Window"`-append-underscore
derivation. -/
def invLbl : Element := { newElement .label with screen_id := some "Inventory_Slot" }

/-- A parsed window `"a"` whose `pieces` list holds the raw reference
strings `"b"` and `"x"` (the string-reference state the assembler's first
pass is written to transfer into `raw_pieces_references`). -/
def winA : Element :=
  { newElement .window with screen_id := some "a", pieces := some [.strE "b", .strE "x"] }

/-- A parsed window `"b"` with raw reference strings `"a"` and `"x"`. -/
def winB : Element :=
  { newElement .window with screen_id := some "b", pieces := some [.strE "a", .strE "x"] }

/-- A parsed button `"x"`, referenced by both windows. -/
def btnX : Element := { newElement .button with screen_id := some "x" }

/-- The doubly-referenced input graph: two windows both referencing the
button `"x"`, and each referencing the other so that all three elements
end up with a parent and assembly completes. -/
def cex6 : ObjGraph := ⟨[winA, winB, btnX], [0, 1, 2]⟩

/-- The result assembly produces for `cex6`: window `"a"` holds
references to cells 1 and 2, window `"b"` holds references to cells 0
and 2 — cell 2 (the button) is owned by both — and the button's
`parent_id` records `"b"`, the later attacher. -/
def cex6Result : AsmResult where
  heap :=
    [{ winA with pieces := some [.refE 1, .refE 2],
                 raw_pieces_references := some ["b", "x"],
                 parent_id := .val "b" },
     { winB with pieces := some [.refE 0, .refE 2],
                 raw_pieces_references := some ["a", "x"],
                 parent_id := .val "a" },
     { btnX with parent_id := .val "b" }]
  windows_by_id := [("a", 0), ("b", 1)]
  all_elements_by_id := [("a", 0), ("b", 1), ("x", 2)]
  unassigned_elements := []

/-- The eleven composite-field child tags of the deserializer
(eq_ui_parser.py lines 108-184). -/
inductive CompTag where
  | locationT
  | sizeT
  | textColorT
  | backgroundTintT
  | disabledColorT
  | mouseoverColorT
  | pressedColorT
  | fillTintT
  | linesFillTintT
  | decalOffsetT
  | decalSizeT
deriving DecidableEq, Repr

/-- The markup tag of a composite field. -/
def CompTag.tagName : CompTag → String
  | .locationT => "Location"
  | .sizeT => "Size"
  | .textColorT => "TextColor"
  | .backgroundTintT => "BackgroundTextureTint"
  | .disabledColorT => "DisabledColor"
  | .mouseoverColorT => "MouseoverColor"
  | .pressedColorT => "PressedColor"
  | .fillTintT => "FillTint"
  | .linesFillTintT => "LinesFillTint"
  | .decalOffsetT => "DecalOffset"
  | .decalSizeT => "DecalSize"

/-- An element class that carries the composite field: `EQGauge` for the
two gauge tints, `EQButton` for everything else. -/
def CompTag.hostCls : CompTag → ElementClass
  | .fillTintT => .gauge
  | .linesFillTintT => .gauge
  | _ => .button

/-- The representative sub-field name of a composite (`X` / `CX` /
`R`). -/
def CompTag.subName : CompTag → String
  | .locationT => "X"
  | .decalOffsetT => "X"
  | .sizeT => "CX"
  | .decalSizeT => "CX"
  | _ => "R"

/-- Read the representative sub-field back from an element. -/
def CompTag.subVal : CompTag → Element → Int
  | .locationT, e => e.location.x
  | .sizeT, e => e.size.cx
  | .textColorT, e => e.text_color.r
  | .backgroundTintT, e => e.background_texture_tint.r
  | .disabledColorT, e => e.disabled_color.r
  | .mouseoverColorT, e => e.mouseover_color.r
  | .pressedColorT, e => e.pressed_color.r
  | .fillTintT, e => e.fill_tint.r
  | .linesFillTintT, e => e.lines_fill_tint.r
  | .decalOffsetT, e => e.decal_offset.x
  | .decalSizeT, e => e.decal_size.cx

/-- The `parent_id` states the assembler itself can produce: the
attribute is either still absent or holds the non-empty ScreenID of an
indexed container (a falsy-but-present `parent_id` is unreachable). -/
def pidOkB (e : Element) : Bool :=
  match e.parent_id with
  | .absent => true
  | .pyNone => false
  | .val s => pyTruthy s

/-- An assembly state in which the third pass has work to inspect but
nothing to attach: the indexed inventory window (a container) and an
indexed button that already carries a truthy parent. -/
def c3SampleState : AsmState where
  heap :=
    [invWin,
     { newElement .button with screen_id := some "IB",
                               parent_id := .val "InventoryWindow" }]
  all := [("InventoryWindow", 0), ("IB", 1)]
  windows := [("InventoryWindow", 0)]

/-- C1: refuted as stated — `assemble_ui_hierarchy` does not complete on
every input.  On the one-element list holding a parsed `EQButton` with
ScreenID `"B"` and no parent assignment anywhere, the fourth pass reads
the never-created `parent_id` attribute and the call raises
`AttributeError` instead of returning the three-part result. -/
theorem c1_assembly_raises_on_unparented_element :
    assembleUiHierarchy ⟨[btnB], [0]⟩ = .error (.attributeError "parent_id") := by
  decide

/-- C2: refuted as stated for `EQWindow` — on
`<Screen ID="W"><Pieces>Btn1</Pieces></Screen>` the deserializer returns
the window with the `Btn1` reference recorded nowhere
(`raw_pieces_references` still absent, `pieces` still empty), because
`EQWindow` never initializes `raw_pieces_references` and the
`hasattr` guard at line 207 therefore fails, discarding the text. -/
theorem c2_pieces_text_reference_is_dropped_for_screen :
    parseElementProperties screenPiecesNode (newElement .window) [] =
        .ok (screenPiecesResult, []) ∧
    screenPiecesResult.raw_pieces_references = none ∧
    screenPiecesResult.pieces = some [] := by
  refine ⟨by decide, rfl, rfl⟩

/-- C5: counterexample — a fatal `FileNotFoundError` and a fatal
`ET.ParseError` return exactly the value returned for a successfully
parsed empty document (`<XML/>`), so the three outcomes are
indistinguishable by the return shape alone. -/
theorem c5_fatal_failure_equals_empty_parse :
    parse_eq_ui_xml .fileNotFound = parse_eq_ui_xml (.doc (.mk "XML" [] [] none)) ∧
    parse_eq_ui_xml .parseError = parse_eq_ui_xml (.doc (.mk "XML" [] [] none)) := by
  decide

/-- C5 amended: both fatal failures return the empty element list — the
same shape a successfully parsed empty document produces — so a caller
can distinguish the outcomes only through the printed text, not through
the return value. -/
theorem c5_fatal_failures_return_empty_list :
    parse_eq_ui_xml .fileNotFound = ⟨[], []⟩ ∧
    parse_eq_ui_xml .parseError = ⟨[], []⟩ ∧
    parse_eq_ui_xml (.doc (.mk "XML" [] [] none)) = ⟨[], []⟩ := by
  decide

/-- C3: counterexample — with a parsed window `"InventoryWindow"` and a
parsed label `"Inventory_Slot"` (which starts with the derived
`"Inventory_"` of the claim), assembly raises `AttributeError` while
reading the label's never-created `parent_id` in the third pass, so no
result attaching the label to the window is ever produced. -/
theorem c3_derived_fallback_attachment_does_not_happen :
    assembleUiHierarchy ⟨[invWin, invLbl], [0, 1]⟩ =
      .error (.attributeError "parent_id") := by
  decide

/-- C10: counterexample — on a one-element list holding a parsed button
with no ScreenID at all, the assembler does not return outputs in which
the element is invisible: it raises `AttributeError` in the orphan scan,
because the unregistered element can never have received a parent. -/
theorem c10_no_screen_id_element_crashes_orphan_scan :
    assembleUiHierarchy ⟨[newElement .button], [0]⟩ =
      .error (.attributeError "parent_id") := by
  decide

/-- Reading a cell after a store write: the written value at the written
index (when in range), the old value elsewhere. -/
theorem getC_setC (h : List Element) (i j : Nat) (e : Element) :
    getC (setC h i e) j = if j = i ∧ i < h.length then e else getC h j := by
  induction h generalizing i j with
  | nil => simp [getC, setC]
  | cons a t ih =>
    cases i with
    | zero =>
      cases j with
      | zero => simp [getC, setC]
      | succ j' => simp [getC, setC]
    | succ i' =>
      cases j with
      | zero => simp [getC, setC]
      | succ j' =>
        have h2 := ih i' j'
        simp only [getC, setC] at h2 ⊢
        simp only [List.set, List.getD_cons_succ]
        rw [h2]
        by_cases hji : j' = i' <;> simp [hji, Nat.succ_lt_succ_iff]

/-- A pair found in a dictionary after insertion was either already there
or is the inserted pair. -/
theorem dictInsert_mem {d : List (String × Nat)} {k : String} {v : Nat}
    {p : String × Nat} (hp : p ∈ dictInsert d k v) : p ∈ d ∨ p = (k, v) := by
  unfold dictInsert at hp
  split at hp
  · rw [List.mem_map] at hp
    obtain ⟨q, hq, hqe⟩ := hp
    by_cases hqk : q.1 = k
    · right; rw [if_pos hqk] at hqe; exact hqe.symm
    · left; rw [if_neg hqk] at hqe; exact hqe ▸ hq
  · rw [List.mem_append] at hp
    rcases hp with h | h
    · left; exact h
    · right; simpa using h

/-- A cell read is either the out-of-range default or a member of the
store. -/
theorem getC_mem_or (h : List Element) (i : Nat) :
    getC h i = dElem ∨ getC h i ∈ h := by
  induction h generalizing i with
  | nil => left; rfl
  | cons a t ih =>
    cases i with
    | zero => right; simp [getC]
    | succ i' =>
      rcases ih i' with hd | hm
      · left; simpa [getC] using hd
      · right; simp [getC]; right; simpa [getC] using hm

/-- The first-pass reference-list reset never touches `screen_id`. -/
theorem stage1Resets_screen_id (e : Element) :
    (stage1Resets e).screen_id = e.screen_id := by
  obtain ⟨c, sid, it, tx, eqt, f, tao, rp, loc, sz, tc, dc, bg, mc, pc, ft, lft, dof,
    dsz, pcs, pgs, rpr, rgr, pid⟩ := e
  unfold stage1Resets
  cases pcs <;> cases pgs <;> dsimp only <;> (repeat' split) <;> rfl

/-- One first-pass step never changes any cell's `screen_id`. -/
theorem stage1Step_screen_id (st : AsmState) (i j : Nat) :
    (getC (stage1Step st i).heap j).screen_id = (getC st.heap j).screen_id := by
  unfold stage1Step
  dsimp only
  rw [getC_setC]
  by_cases hji : j = i ∧ i < st.heap.length
  · rw [if_pos hji]
    rw [stage1Resets_screen_id]
    rw [hji.1]
  · rw [if_neg hji]

/-- Every pair registered by the first pass points at a cell whose
ScreenID was truthy in the input store. -/
theorem stage1_fold_registered_truthy (g0 : List Element) :
    ∀ (tops : List Nat) (st : AsmState),
      (∀ p : String × Nat, (p ∈ st.all ∨ p ∈ st.windows) →
        truthyOpt (getC g0 p.2).screen_id = true) →
      (∀ j, (getC st.heap j).screen_id = (getC g0 j).screen_id) →
      ∀ p : String × Nat,
        (p ∈ (tops.foldl stage1Step st).all ∨ p ∈ (tops.foldl stage1Step st).windows) →
        truthyOpt (getC g0 p.2).screen_id = true := by
  intro tops
  induction tops with
  | nil => intro st h1 _ p hp; exact h1 p hp
  | cons i rest ih =>
    intro st h1 h2 p hp
    rw [List.foldl_cons] at hp
    refine ih (stage1Step st i) ?_ ?_ p hp
    · intro q hq
      rcases hq with hm | hm
      · have hrw : (stage1Step st i).all =
            if truthyOpt (getC st.heap i).screen_id then
              dictInsert st.all ((getC st.heap i).screen_id.getD "") i
            else st.all := rfl
        rw [hrw] at hm
        split at hm
        · rcases dictInsert_mem hm with hmm | hmm
          · exact h1 q (Or.inl hmm)
          · rw [hmm]
            show truthyOpt (getC g0 i).screen_id = true
            rw [← h2 i]
            assumption
        · exact h1 q (Or.inl hm)
      · have hrw : (stage1Step st i).windows =
            if truthyOpt (getC st.heap i).screen_id &&
                ((getC st.heap i).cls = ElementClass.window) then
              dictInsert st.windows ((getC st.heap i).screen_id.getD "") i
            else st.windows := rfl
        rw [hrw] at hm
        split at hm
        · rcases dictInsert_mem hm with hmm | hmm
          · exact h1 q (Or.inr hmm)
          · rw [hmm]
            show truthyOpt (getC g0 i).screen_id = true
            rw [← h2 i]
            rename_i hcond
            simp only [Bool.and_eq_true] at hcond
            exact hcond.1
        · exact h1 q (Or.inr hm)
    · intro j
      rw [stage1Step_screen_id]
      exact h2 j

/-- A third-pass step that returns normally leaves the store untouched,
provided no cell carries a falsy-but-present `parent_id` (the only
states the assembler can produce). -/
theorem stage3Step_ok_of_pidOk {w : Nat} {heap : List Element}
    {pr : String × Nat} {h' : List Element}
    (hall : ∀ e ∈ heap, pidOkB e = true)
    (hok : stage3Step w heap pr = .ok h') : h' = heap := by
  have hpid : pidOkB (getC heap pr.2) = true := by
    rcases getC_mem_or heap pr.2 with hd | hm
    · rw [hd]; rfl
    · exact hall _ hm
  unfold stage3Step at hok
  by_cases hc : isContainerCls (getC heap pr.2).cls
  · simp [hc] at hok; exact hok.symm
  · simp only [hc, if_false, Bool.false_eq_true] at hok
    cases hpd : (getC heap pr.2).parent_id with
    | absent => rw [hpd] at hok; simp at hok
    | pyNone =>
      unfold pidOkB at hpid; rw [hpd] at hpid; simp at hpid
    | val s =>
      have hs : pyTruthy s = true := by
        unfold pidOkB at hpid; rw [hpd] at hpid; exact hpid
      rw [hpd] at hok
      simp [attrTruthy, hs] at hok
      exact hok.symm

/-- The whole third-pass loop is the identity whenever it returns
normally (same proviso). -/
theorem stage3Fold_ok_of_pidOk {w : Nat} :
    ∀ {l : List (String × Nat)} {heap h' : List Element},
      (∀ e ∈ heap, pidOkB e = true) → stage3Fold w l heap = .ok h' → h' = heap := by
  intro l
  induction l with
  | nil =>
    intro heap h' _ hok
    unfold stage3Fold at hok
    exact (Except.ok.inj hok).symm
  | cons pr rest ih =>
    intro heap h' hall hok
    unfold stage3Fold at hok
    cases hstep : stage3Step w heap pr with
    | error er => rw [hstep] at hok; simp at hok
    | ok hmid =>
      rw [hstep] at hok
      have hme := stage3Step_ok_of_pidOk hall hstep
      subst hme
      exact ih hall hok

/-- Splitting a colon-free character list is the identity chunk. -/
theorem splitColonChars_no_colon {l : List Char} (h : ∀ c ∈ l, ¬(c = ':')) :
    splitColonChars l = [l] := by
  induction l with
  | nil => rfl
  | cons c rest ih =>
    unfold splitColonChars
    rw [ih (fun x hx => h x (List.mem_cons_of_mem _ hx))]
    simp [h c (List.mem_cons_self c rest)]

/-- Splitting around the first colon after a colon-free chunk. -/
theorem splitColonChars_append {l1 l2 : List Char} (h : ∀ c ∈ l1, ¬(c = ':')) :
    splitColonChars (l1 ++ ':' :: l2) = l1 :: splitColonChars l2 := by
  induction l1 with
  | nil => simp [splitColonChars]
  | cons c rest ih =>
    rw [List.cons_append]
    unfold splitColonChars
    rw [ih (fun x hx => h x (List.mem_cons_of_mem _ hx))]
    simp [h c (List.mem_cons_self c rest)]
    exact splitColonChars.eq_def l2

/-- A string without a colon has no colon character. -/
theorem hasColon_false_chars {s : String} (h : hasColon s = false) :
    ∀ c ∈ s.data, ¬(c = ':') := by
  intro c hc he
  have hany : s.data.any (fun x => x = ':') = true := by
    rw [List.any_eq_true]
    exact ⟨c, hc, by simp [he]⟩
  rw [hasColon] at h
  rw [hany] at h
  exact Bool.noConfusion h

/-- Character content of `tag ++ ":" ++ id`. -/
theorem append_colon_data (tag id : String) :
    (tag ++ ":" ++ id).data = tag.data ++ ':' :: id.data := by
  simp [String.data_append]

/-- C6: counterexample — assembling `cex6` (two windows whose raw
reference lists both name the button `"x"`) completes normally and leaves
the button (cell 2) in the resolved `pieces` of both windows, so an
element can appear in two different containers' resolved children. -/
theorem c6_element_owned_by_two_containers :
    assembleUiHierarchy cex6 = .ok cex6Result ∧
    (getC cex6Result.heap 0).pieces = some [.refE 1, .refE 2] ∧
    (getC cex6Result.heap 1).pieces = some [.refE 0, .refE 2] ∧
    cex6Result.unassigned_elements = [] := by
  refine ⟨by decide, rfl, rfl, rfl⟩

/-- C6 amended: the assembler does not enforce single ownership — an
element whose ScreenID appears in the pending references of two different
containers is appended to both containers' resolved `pieces`, and its
`parent_id` keeps only the last attacher (here window `"b"`). -/
theorem c6_double_reference_attaches_twice :
    assembleUiHierarchy cex6 = .ok cex6Result ∧
    PieceEntry.refE 2 ∈ ((getC cex6Result.heap 0).pieces).getD [] ∧
    PieceEntry.refE 2 ∈ ((getC cex6Result.heap 1).pieces).getD [] ∧
    (getC cex6Result.heap 2).parent_id = .val "b" := by
  refine ⟨by decide, by decide, by decide, rfl⟩

/-- C7: confirmed — during deserialization of one node, an `ID` attribute
sets ScreenID unconditionally; a `name` attribute sets ScreenID (and
`item`) only when still unset; all attributes are processed before any
child node is examined; and a `ScreenID` child tag always overwrites
whatever the attributes set. -/
theorem c7_screen_id_precedence :
    (∀ (v : String) (e : Element),
      stepAttr e ("ID", v) = .ok { e with screen_id := some v }) ∧
    (∀ (v : String) (e : Element),
      stepAttr e ("name", v) =
        .ok { e with
              screen_id := if e.screen_id = none then some v else e.screen_id,
              item := if e.item = none then some v else e.item }) ∧
    (∀ (node : Node) (e : Element) (heap : List Element),
      parseElementProperties node e heap =
        match attrsPhase node.attrib e with
        | .error er => .error er
        | .ok e' => childrenFold node.children e' heap) ∧
    (∀ (attrib : List (String × String)) (children : List Node)
        (txt : Option String) (e : Element) (heap : List Element),
      processChild (.mk "ScreenID" attrib children txt) e heap =
        .ok ({ e with screen_id := some (stripOrEmpty txt) }, heap)) := by
  refine ⟨?_, ?_, ?_, ?_⟩
  · intro v e; rfl
  · intro v e
    by_cases h1 : e.screen_id = none <;> by_cases h2 : e.item = none <;>
      simp [stepAttr, h1, h2]
  · intro node e heap; cases node; rfl
  · intro attrib children txt e heap; rfl

/-- C8: confirmed — for every composite field tag (Point, Size and Color
valued alike), attributes on the composite node are applied first, then
sub-node text, a later write overwriting an earlier one: attributes
alone yield the attribute value, sub-nodes alone yield the sub-node
value, and when both set the same sub-field the sub-node value is
final. -/
theorem c8_composite_precedence :
    ∀ (t : CompTag) (sa sv : String) (va vv : Int),
      pyInt sa = some va → pyInt (pyStrip sv) = some vv →
      (processChild (.mk t.tagName [(t.subName, sa)] [] none)
          (newElement t.hostCls) []).map (fun p => t.subVal p.1) = .ok va ∧
      (processChild (.mk t.tagName [] [.mk t.subName [] [] (some sv)] none)
          (newElement t.hostCls) []).map (fun p => t.subVal p.1) = .ok vv ∧
      (processChild (.mk t.tagName [(t.subName, sa)] [.mk t.subName [] [] (some sv)] none)
          (newElement t.hostCls) []).map (fun p => t.subVal p.1) = .ok vv := by
  intro t sa sv va vv h1 h2
  cases t <;>
    simp [processChild, CompTag.tagName, CompTag.subName, CompTag.hostCls, CompTag.subVal,
      isColorTag, colorTarget, applyPointNode, applySizeNode, applyRgbNode, rgbAttr,
      pointSubs, sizeSubs, rgbSubs, lookupAttr, newElement, hasButtonExtrasCls,
      hasGaugeExtrasCls, h1, h2, List.find?, Node.tag, Node.txt, Node.attrib,
      Node.children, Except.map]

/-- C8 witness: the composite precedence theorem applied to the
`Location` tag with attribute text `"7"` and sub-node text `" 9 "`. -/
theorem c8_composite_precedence_witness :
    (pyInt "7" = some 7 ∧ pyInt (pyStrip " 9 ") = some 9) ∧
    ((processChild (.mk (CompTag.tagName .locationT)
          [(CompTag.subName .locationT, "7")] [] none)
        (newElement (CompTag.hostCls .locationT)) []).map
        (fun p => CompTag.subVal .locationT p.1) = .ok 7 ∧
     (processChild (.mk (CompTag.tagName .locationT) []
          [.mk (CompTag.subName .locationT) [] [] (some " 9 ")] none)
        (newElement (CompTag.hostCls .locationT)) []).map
        (fun p => CompTag.subVal .locationT p.1) = .ok 9 ∧
     (processChild (.mk (CompTag.tagName .locationT)
          [(CompTag.subName .locationT, "7")]
          [.mk (CompTag.subName .locationT) [] [] (some " 9 ")] none)
        (newElement (CompTag.hostCls .locationT)) []).map
        (fun p => CompTag.subVal .locationT p.1) = .ok 9) :=
  ⟨⟨by decide, by decide⟩,
   c8_composite_precedence .locationT "7" " 9 " 7 9 (by decide) (by decide)⟩

/-- C4: counterexample — an integer-typed direct attribute whose text
does not parse (`font="abc"` on a Button) raises `ValueError` out of the
deserializer instead of keeping the previous value. -/
theorem c4_attribute_coercion_failure_raises :
    parseElementProperties (.mk "Button" [("font", "abc")] [] none)
      (newElement .button) [] = .error .valueError := by
  decide

/-- C4 amended: on unparseable numeric text, only the fallback scalar
child tags and the `Font` child tag keep the previous value without an
error; an integer-typed direct attribute and a composite sub-field
attribute both raise `ValueError` from the deserializer. -/
theorem c4_numeric_coercion_failure_sites :
    ∀ (s : String) (e : Element) (heap : List Element),
      pyInt s = none → pyInt (pyStrip s) = none →
      processChild (.mk "top_anchor_offset" [] [] (some s)) e heap = .ok (e, heap) ∧
      stepAttr e ("font", s) = .error .valueError ∧
      processChild (.mk "Font" [] [] (some s)) e heap = .ok (e, heap) ∧
      processChild (.mk "Location" [("X", s)] [] none) e heap = .error .valueError := by
  intro s e heap h1 h2
  refine ⟨?_, ?_, ?_, ?_⟩
  · by_cases ht : pyTruthy (pyStrip s) <;>
      simp [processChild, isColorTag, fallbackAssign, pyLower, h2, ht]
  · simp [stepAttr, h1]
  · simp [processChild, isColorTag, h2]
  · simp [processChild, isColorTag, applyPointNode, lookupAttr, h1]

/-- C4 witness: the coercion-failure sites theorem applied at text
`"abc"` on a fresh Button. -/
theorem c4_numeric_coercion_failure_sites_witness :
    (pyInt "abc" = none ∧ pyInt (pyStrip "abc") = none) ∧
    (processChild (.mk "top_anchor_offset" [] [] (some "abc"))
        (newElement .button) [] = .ok (newElement .button, []) ∧
     stepAttr (newElement .button) ("font", "abc") = .error .valueError ∧
     processChild (.mk "Font" [] [] (some "abc"))
        (newElement .button) [] = .ok (newElement .button, []) ∧
     processChild (.mk "Location" [("X", "abc")] [] none)
        (newElement .button) [] = .error .valueError) :=
  ⟨⟨by decide, by decide⟩,
   c4_numeric_coercion_failure_sites "abc" (newElement .button) []
     (by decide) (by decide)⟩

/-- C9: counterexample — with the ScreenID `"A:B"` present in the global
index, the reference strings `"Button:A:B"` and `"A:B"` do not resolve to
that indexed element, nor to the same element as each other: the code
takes the second colon-separated component, so they look up `"A"` and
`"B"` respectively. -/
theorem c9_colon_id_resolves_elsewhere :
    resolveRefId "Button:A:B" = "A" ∧ resolveRefId "A:B" = "B" ∧
    dictGet [("A", 0), ("B", 1), ("A:B", 2)] (resolveRefId "Button:A:B") = some 0 ∧
    dictGet [("A", 0), ("B", 1), ("A:B", 2)] (resolveRefId "A:B") = some 1 := by
  refine ⟨by decide, by decide, by decide, by decide⟩

/-- C9 amended: for a tag and a ScreenID that themselves contain no
colon, the reference strings `"<tag>:<id>"` and `"<id>"` both resolve to
`id`, hence to the same indexed element; the invariance fails only when
the ScreenID itself contains a colon, because the code takes the second
colon-separated component rather than stripping one prefix. -/
theorem c9_tagged_and_bare_resolve_same :
    ∀ (tag id : String),
      hasColon tag = false → hasColon id = false →
      resolveRefId (tag ++ ":" ++ id) = id ∧ resolveRefId id = id := by
  intro tag id h1 h2
  have htagc := hasColon_false_chars h1
  have hidc := hasColon_false_chars h2
  constructor
  · have hdata : (tag ++ ":" ++ id).data = tag.data ++ ':' :: id.data :=
      append_colon_data tag id
    have hcol : hasColon (tag ++ ":" ++ id) = true := by
      rw [hasColon, hdata]
      simp
    rw [resolveRefId, hcol]
    simp only [if_true]
    rw [pySplitColon, hdata, splitColonChars_append htagc,
      splitColonChars_no_colon hidc]
    simp
  · rw [resolveRefId, h2]
    simp

/-- C9 witness: the tagged/bare invariance theorem applied to the spec's
own example pair `"Button:MyOK"` / `"MyOK"`. -/
theorem c9_tagged_and_bare_resolve_same_witness :
    (hasColon "Button" = false ∧ hasColon "MyOK" = false) ∧
    (resolveRefId ("Button" ++ ":" ++ "MyOK") = "MyOK" ∧
     resolveRefId "MyOK" = "MyOK") :=
  ⟨⟨by decide, by decide⟩,
   c9_tagged_and_bare_resolve_same "Button" "MyOK" (by decide) (by decide)⟩

/-- C3 amended: the third pass never attaches anything.  A candidate
with no recorded parent makes the pass raise `AttributeError`, a
candidate with a recorded (hence truthy) parent is skipped, and
containers are skipped — so whenever the pass returns normally it leaves
the assembly state exactly as it found it, heuristic prefix
notwithstanding. -/
theorem c3_stage3_never_attaches :
    ∀ (st st' : AsmState), stage3 st = .ok st' →
      (∀ e ∈ st.heap, pidOkB e = true) → st' = st := by
  intro st st' hok hall
  unfold stage3 at hok
  cases hw : dictGet st.windows "InventoryWindow" with
  | none => rw [hw] at hok; exact (Except.ok.inj hok).symm
  | some w =>
    rw [hw] at hok
    dsimp only at hok
    cases hf : stage3Fold w st.all st.heap with
    | error er => rw [hf] at hok; simp at hok
    | ok h2 =>
      rw [hf] at hok
      have hh := stage3Fold_ok_of_pidOk hall hf
      subst hh
      cases st
      exact (Except.ok.inj hok).symm

/-- C3 witness: the never-attaches theorem applied to a state holding
the inventory window and one already-parented button — the pass returns
normally and the state is unchanged. -/
theorem c3_stage3_never_attaches_witness :
    (stage3 c3SampleState = .ok c3SampleState ∧
     ∀ e ∈ c3SampleState.heap, pidOkB e = true) ∧
    c3SampleState = c3SampleState :=
  ⟨⟨by decide, by decide⟩,
   c3_stage3_never_attaches c3SampleState c3SampleState (by decide) (by decide)⟩

/-- C10 amended: the first pass registers only elements whose ScreenID is
present and non-empty — every pair in the produced index or windows map
points at a cell whose ScreenID is truthy — so an absent- or
empty-ScreenID element appears in neither map (while, by the
counterexample, such an element with no recorded parent aborts assembly
in the orphan scan rather than being silently omitted from an orphan
list). -/
theorem c10_empty_screen_id_never_registered :
    ∀ (g : ObjGraph) (p : String × Nat),
      (p ∈ (stage1 g).all ∨ p ∈ (stage1 g).windows) →
      truthyOpt (getC g.heap p.2).screen_id = true := by
  intro g p hp
  exact stage1_fold_registered_truthy g.heap g.tops ⟨g.heap, [], []⟩
    (by intro q hq; rcases hq with h | h <;> simp at h)
    (fun j => rfl) p hp

/-- C10 witness: the registration theorem applied to the one-button
graph — the pair `("B", 0)` is in the index and cell 0's ScreenID is
truthy. -/
theorem c10_empty_screen_id_never_registered_witness :
    (("B", 0) ∈ (stage1 ⟨[btnB], [0]⟩).all ∨
     ("B", 0) ∈ (stage1 ⟨[btnB], [0]⟩).windows) ∧
    truthyOpt (getC [btnB] 0).screen_id = true :=
  ⟨Or.inl (by decide),
   c10_empty_screen_id_never_registered ⟨[btnB], [0]⟩ ("B", 0) (Or.inl (by decide))⟩
